import Mathlib

/-!
Shallow embedding of the emotibit-data core (src/types.rs, src/parser.rs):
the packet data model, the payload decoder, the TX refinement step, the
sync-triple extractor, the sync-map builder and the timestamp projector.

Conventions of the embedding:
* Rust `f64`/`f32` timestamps and samples are modelled as exact rationals
  (`ℚ`); none of the verified properties depends on binary rounding or on
  NaN propagation.
* Machine integers (`u8`, `u32`, `i32`, `usize`) are modelled as `Nat`/`Int`;
  the numeric field parsers check the Rust range bounds explicitly.
* A Rust function that returns `Result` is modelled with `Except String`.
  Functions that can additionally abort through `unwrap`/`expect`/slice
  indexing are modelled with the `Outcome` type below, which distinguishes a
  returned `Err` from a runtime panic.
* `chrono`'s local-time handling is modelled by threading an explicit UTC
  offset `tz` (seconds) through `get_c_e`; the civil-date-to-epoch
  conversion uses the standard days-from-civil calculation.
-/

/-- Result of running a Rust function that may return `Ok`, return `Err`,
or abort the process with a panic (`unwrap` on `None`, `expect`,
out-of-range slice indexing). -/
inductive Outcome (α : Type) where
  | ok : α → Outcome α
  | error : String → Outcome α
  | panicked : String → Outcome α
deriving DecidableEq, Repr

/-- Sequencing of `Outcome` computations: errors and panics propagate. -/
def Outcome.bind {α β : Type} : Outcome α → (α → Outcome β) → Outcome β
  | .ok a, f => f a
  | .error m, _ => .error m
  | .panicked m, _ => .panicked m

/-- True exactly on the `panicked` constructor. -/
def Outcome.isPanic {α : Type} : Outcome α → Bool
  | .panicked _ => true
  | _ => false

/-- Emotibit payload variants (`DataType` in src/types.rs). Float payloads
are `List ℚ`, unsigned payloads `List Nat`, signed payloads `List Int`. -/
inductive DataType where
  | EA : List ℚ → DataType
  | EL : List ℚ → DataType
  | ER : List ℚ → DataType
  | PI : List Nat → DataType
  | PR : List Nat → DataType
  | PG : List Nat → DataType
  | T0 : List ℚ → DataType
  | T1 : List ℚ → DataType
  | TH : List ℚ → DataType
  | AX : List ℚ → DataType
  | AY : List ℚ → DataType
  | AZ : List ℚ → DataType
  | GX : List ℚ → DataType
  | GY : List ℚ → DataType
  | GZ : List ℚ → DataType
  | MX : List Int → DataType
  | MY : List Int → DataType
  | MZ : List Int → DataType
  | BV : List ℚ → DataType
  | BATLV : List Nat → DataType
  | AK : List String → DataType
  | RD : List String → DataType
  | TL : String → DataType
  | TX : List String → DataType
  | TxTlLc : String × ℚ → DataType
  | TxLcLm : List ℚ → DataType
  | EM : List String → DataType
  | HR : List Int → DataType
  | BI : List Int → DataType
  | SA : List ℚ → DataType
  | SF : List ℚ → DataType
  | SR : List ℚ → DataType
  | UN : List String → DataType
  | LM : String → DataType
  | RB : String → DataType
deriving DecidableEq, Repr

/-- One decoded record (`DataPacket` in src/types.rs). The device timestamp
field is named `timestamp` in parser.rs and `emotibit_timestamp` in
types.rs; the embedding uses the types.rs name throughout. -/
structure DataPacket where
  host_timestamp : Option ℚ
  emotibit_timestamp : ℚ
  packet_id : Nat
  data_points : Nat
  version : Nat
  reliability : Nat
  data_type : DataType
deriving DecidableEq, Repr

/-- One completed handshake sample (`TimeSync` in src/types.rs). -/
structure TimeSync where
  rd : ℚ
  ts_received : ℚ
  ts_sent : String
  ak : ℚ
  round_trip : ℚ
deriving DecidableEq, Repr

/-- The derived linear clock mapping (`TimeSyncMap` in src/types.rs). -/
structure TimeSyncMap where
  te0 : ℚ
  te1 : ℚ
  tl0 : ℚ
  tl1 : ℚ
  syncs_received : Nat
  emotibit_start_time : ℚ
  emotibit_end_time : ℚ
  parse_version : String
deriving DecidableEq, Repr

/-- Digit list to the natural number it denotes (most significant first). -/
def digitsToNat (ds : List Char) : Nat :=
  ds.foldl (fun acc c => acc * 10 + (c.toNat - 48)) 0

/-- Model of Rust `str::trim`: strip leading and trailing whitespace. -/
def trimStr (s : String) : String :=
  ⟨((s.toList.dropWhile Char.isWhitespace).reverse.dropWhile Char.isWhitespace).reverse⟩

/-- Decimal core of Rust float `FromStr` on an unsigned mantissa:
`digits` or `digits.digits`, exact rational value. -/
def parseUnsignedFloat (cs : List Char) : Option ℚ :=
  let ds := cs.takeWhile Char.isDigit
  let rest := cs.dropWhile Char.isDigit
  if ds.isEmpty then none
  else
    match rest with
    | [] => some (digitsToNat ds : ℚ)
    | '.' :: frac =>
      let fs := frac.takeWhile Char.isDigit
      let rest2 := frac.dropWhile Char.isDigit
      if fs.isEmpty || !rest2.isEmpty then none
      else some ((digitsToNat ds : ℚ) + (digitsToNat fs : ℚ) / ((10 ^ fs.length : Nat) : ℚ))
    | _ => none

/-- Model of Rust `f32`/`f64` `FromStr` (decimal forms, exact value). -/
def parse_float (s : String) : Option ℚ :=
  match s.toList with
  | '-' :: rest => (parseUnsignedFloat rest).map Neg.neg
  | '+' :: rest => parseUnsignedFloat rest
  | cs => parseUnsignedFloat cs

/-- All-digit string (with optional leading `+`) to `Nat`. -/
def parseNatDigits (s : String) : Option Nat :=
  let cs := match s.toList with
    | '+' :: rest => rest
    | cs => cs
  if cs.isEmpty || !cs.all Char.isDigit then none else some (digitsToNat cs)

/-- Model of Rust `u32::from_str`: digits with range check. -/
def parse_u32 (s : String) : Option Nat :=
  match parseNatDigits s with
  | some n => if n < 2 ^ 32 then some n else none
  | none => none

/-- Model of Rust `i32::from_str`: optional sign, digits, range check. -/
def parse_i32 (s : String) : Option Int :=
  match s.toList with
  | '-' :: rest =>
    match parseNatDigits ⟨rest⟩ with
    | some n => if n ≤ 2 ^ 31 then some (-(n : Int)) else none
    | none => none
  | _ =>
    match parseNatDigits s with
    | some n => if n < 2 ^ 31 then some (n : Int) else none
    | none => none

/-- `to_string` helper of src/types.rs: join all fields from `index` on
with a comma separator. -/
def to_string (record : List String) (index : Nat) : String :=
  String.intercalate "," (record.drop index)

/-- `to_string_vec` helper of src/types.rs: all fields from `index` on. -/
def to_string_vec (record : List String) (index : Nat) : List String :=
  record.drop index

/-- `to_vec` helper of src/types.rs: parse every field from `index_from` on
(after trimming) with `p`; collect the successes and the failures, succeed
with the successes only when there was no failure. -/
def to_vec {α : Type} (p : String → Option α) (record : List String)
    (index_from : Nat) : Except String (List α) :=
  let fields := record.drop index_from
  let vec := fields.filterMap (fun x => p (trimStr x))
  let errors := fields.filter (fun x => (p (trimStr x)).isNone)
  if errors.isEmpty then .ok vec else .error "Parse to Num Error"

/-- `get_data_type` of src/types.rs: dispatch on the type tag, decoding the
payload from the fixed skip offset 6 onward. -/
def get_data_type (record : List String) (type_str : String) :
    Except String DataType :=
  let skip_to_payload := 6
  match type_str with
  | "RB" => .ok (DataType.RB (to_string record skip_to_payload))
  | "AK" => .ok (DataType.AK (to_string_vec record skip_to_payload))
  | "EA" => (to_vec parse_float record skip_to_payload).map DataType.EA
  | "EL" => (to_vec parse_float record skip_to_payload).map DataType.EL
  | "ER" => (to_vec parse_float record skip_to_payload).map DataType.ER
  | "PI" => (to_vec parse_u32 record skip_to_payload).map DataType.PI
  | "PR" => (to_vec parse_u32 record skip_to_payload).map DataType.PR
  | "PG" => (to_vec parse_u32 record skip_to_payload).map DataType.PG
  | "T0" => (to_vec parse_float record skip_to_payload).map DataType.T0
  | "T1" => (to_vec parse_float record skip_to_payload).map DataType.T1
  | "TH" => (to_vec parse_float record skip_to_payload).map DataType.TH
  | "AX" => (to_vec parse_float record skip_to_payload).map DataType.AX
  | "AY" => (to_vec parse_float record skip_to_payload).map DataType.AY
  | "AZ" => (to_vec parse_float record skip_to_payload).map DataType.AZ
  | "GX" => (to_vec parse_float record skip_to_payload).map DataType.GX
  | "GY" => (to_vec parse_float record skip_to_payload).map DataType.GY
  | "GZ" => (to_vec parse_float record skip_to_payload).map DataType.GZ
  | "MX" => (to_vec parse_i32 record skip_to_payload).map DataType.MX
  | "MY" => (to_vec parse_i32 record skip_to_payload).map DataType.MY
  | "MZ" => (to_vec parse_i32 record skip_to_payload).map DataType.MZ
  | "BI" => (to_vec parse_i32 record skip_to_payload).map DataType.BI
  | "SA" => (to_vec parse_float record skip_to_payload).map DataType.SA
  | "SF" => (to_vec parse_float record skip_to_payload).map DataType.SF
  | "SR" => (to_vec parse_float record skip_to_payload).map DataType.SR
  | "BV" => (to_vec parse_float record skip_to_payload).map DataType.BV
  | "HR" => (to_vec parse_i32 record skip_to_payload).map DataType.HR
  | "B%" => (to_vec parse_u32 record skip_to_payload).map DataType.BATLV
  | "RD" => .ok (DataType.RD (to_string_vec record skip_to_payload))
  | "UN" => .ok (DataType.UN (to_string_vec record skip_to_payload))
  | "EM" => .ok (DataType.EM (to_string_vec record skip_to_payload))
  | "TL" => .ok (DataType.TL (to_string record skip_to_payload))
  | "TX" => .ok (DataType.TX (to_string_vec record skip_to_payload))
  | "LM" => .ok (DataType.LM (to_string record skip_to_payload))
  | _ => .error ("Unknown Type: " ++ type_str)

/-- `split_tx_or_as_is` of src/parser.rs: refine a generic `TX` payload with
at least 4 entries by its sub-tag pair, reject unrecognized pairs, keep
everything else unchanged. -/
def split_tx_or_as_is (x : DataPacket) : Except String DataPacket :=
  match x.data_type with
  | .TX data =>
    match data.get? 0, data.get? 1, data.get? 2, data.get? 3 with
    | some tag1, some val1, some tag2, some val2 =>
      if tag1 = "LC" ∧ tag2 = "LM" then
        match parse_float val1, parse_float val2 with
        | some a, some b => .ok { x with data_type := .TxLcLm [a, b] }
        | _, _ => .error "invalid float literal"
      else if tag1 = "TL" ∧ tag2 = "LC" then
        match parse_float val2 with
        | some b => .ok { x with data_type := .TxTlLc (val1, b) }
        | none => .error "invalid float literal"
      else .error "Invalid data"
    | _, _, _, _ => .ok x
  | _ => .ok x

/-- Is this packet one of the three handshake tags `RD`, `TL`, `AK`? -/
def isSyncPacket : DataType → Bool
  | .RD _ => true
  | .TL _ => true
  | .AK _ => true
  | _ => false

/-- The sliding 3-window of a list: element `i` paired with elements
`i+1` and `i+2` (models `izip!(&v, &v[1..], &v[2..])`). -/
def zip3 {α : Type} (l : List α) : List (α × α × α) :=
  l.zip ((l.drop 1).zip (l.drop 2))

/-- One window of three consecutive handshake packets forms a `TimeSync`
exactly when the tags occur in the order `RD`, `TL`, `AK`. -/
def windowToSync : DataPacket × DataPacket × DataPacket → Option TimeSync
  | (rd, tl, ak) =>
    match rd.data_type, tl.data_type, ak.data_type with
    | .RD _, .TL date_time, .AK _ =>
      some { rd := rd.emotibit_timestamp
             ts_received := tl.emotibit_timestamp
             ts_sent := date_time
             ak := ak.emotibit_timestamp
             round_trip := tl.emotibit_timestamp - rd.emotibit_timestamp }
    | _, _, _ => none

/-- `find_syncs` of src/parser.rs: filter the decode results down to the
three handshake tags and scan with a 3-window. The source slices the
filtered vector at offsets 1 and 2 before iterating, which panics when
fewer than 2 qualifying packets exist. -/
def find_syncs (packets : List (Except String DataPacket)) :
    Outcome (List TimeSync) :=
  let syncs := packets.filterMap (fun r =>
    match r with
    | .ok p => if isSyncPacket p.data_type then some p else none
    | .error _ => none)
  if syncs.length < 2 then .panicked "slice start index out of range"
  else .ok ((zip3 syncs).filterMap windowToSync)

/-- Model of `Iterator::reduce(f64::min)`: `none` on the empty list. -/
def reduceMin (l : List ℚ) : Option ℚ :=
  match l with
  | [] => none
  | x :: xs => some (xs.foldl min x)

/-- Model of `Iterator::reduce(f64::max)`: `none` on the empty list. -/
def reduceMax (l : List ℚ) : Option ℚ :=
  match l with
  | [] => none
  | x :: xs => some (xs.foldl max x)

/-- `ceil(a / b)` on naturals (`num::integer::div_ceil`). -/
def div_ceil (a b : Nat) : Nat :=
  (a + b - 1) / b

/-- Fuelled worker for `chunksOf`: every step with a positive chunk size
consumes at least one element, so fuel `l.length` always suffices. Fuel
recursion keeps the definition structurally recursive (hence computable by
plain reduction). -/
def chunksOfAux {α : Type} : Nat → Nat → List α → List (List α)
  | _, _, [] => []
  | 0, _, l => [l]
  | fuel + 1, n, x :: xs =>
    match n with
    | 0 => [x :: xs]
    | m + 1 => (x :: xs).take (m + 1) :: chunksOfAux fuel n (xs.drop m)

/-- Model of Rust `slice::chunks(n)`: contiguous chunks of size `n`, the
last possibly shorter, never empty. The `n = 0` case is unreachable in the
embedding (the caller panics first). -/
def chunksOf {α : Type} (n : Nat) (l : List α) : List (List α) :=
  chunksOfAux l.length n l

/-- `shortest_round_trip` of src/parser.rs: the first element whose
`round_trip` equals the reduced minimum; panics (`unwrap`) when the slice
is empty. -/
def shortest_round_trip (vec : List TimeSync) : Outcome (Option TimeSync) :=
  match reduceMin (vec.map (fun x => x.round_trip)) with
  | none => .panicked "called Option::unwrap on a None value"
  | some shortest => .ok (vec.find? (fun ts => decide (ts.round_trip = shortest)))

/-- The anchor-pair match of `generate_sync_map` (src/parser.rs lines
103-117), arm for arm in source order. -/
def best_timestamps (q0 q1 q2 q3 : Option TimeSync) :
    Option (TimeSync × TimeSync) :=
  match q0, q1, q2, q3 with
  | some x, _, _, some y => some (x, y)
  | some x, _, some y, _ => some (x, y)
  | _, some x, _, some y => some (x, y)
  | _, some x, some y, _ => some (x, y)
  | some x, some y, _, _ => some (x, y)
  | _, _, some x, some y => some (x, y)
  | _, _, _, _ => none

/-- The parsed fields of the embedded host timestamp head. -/
structure DateTimeParts where
  y : Nat
  mo : Nat
  d : Nat
  h : Nat
  mi : Nat
  s : Nat
deriving DecidableEq, Repr

/-- Expect character `c` at the head of the input. -/
def expectChar (c : Char) : List Char → Option (List Char)
  | x :: xs => if x = c then some xs else none
  | [] => none

/-- Greedily read at least one decimal digit. -/
def takeNat (cs : List Char) : Option (Nat × List Char) :=
  let ds := cs.takeWhile Char.isDigit
  if ds.isEmpty then none
  else some (digitsToNat ds, cs.dropWhile Char.isDigit)

/-- Is `y` a Gregorian leap year? -/
def isLeapYear (y : Nat) : Bool :=
  (y % 4 = 0 && y % 100 ≠ 0) || y % 400 = 0

/-- Days in month `mo` of year `y`. -/
def daysInMonth (y mo : Nat) : Nat :=
  if mo = 2 then (if isLeapYear y then 29 else 28)
  else if mo = 4 ∨ mo = 6 ∨ mo = 9 ∨ mo = 11 then 30
  else 31

/-- Model of `NaiveDateTime::parse_from_str` with pattern
`%Y-%m-%d_%H-%M-%S`: the whole input must match, and the fields must form
a valid date-time. -/
def parse_datetime (cs : List Char) : Option DateTimeParts := do
  let (y, r) ← takeNat cs
  let r ← expectChar '-' r
  let (mo, r) ← takeNat r
  let r ← expectChar '-' r
  let (d, r) ← takeNat r
  let r ← expectChar '_' r
  let (h, r) ← takeNat r
  let r ← expectChar '-' r
  let (mi, r) ← takeNat r
  let r ← expectChar '-' r
  let (s, r) ← takeNat r
  if r = [] ∧ 1 ≤ mo ∧ mo ≤ 12 ∧ 1 ≤ d ∧ d ≤ daysInMonth y mo ∧
      h ≤ 23 ∧ mi ≤ 59 ∧ s ≤ 59 then
    some ⟨y, mo, d, h, mi, s⟩
  else none

/-- Days between 1970-01-01 and the civil date `y-mo-d` (the standard
days-from-civil computation used by calendar libraries). -/
def daysFromCivil (y mo d : Nat) : Int :=
  let yAdj : Int := if mo ≤ 2 then (y : Int) - 1 else (y : Int)
  let era : Int := (if 0 ≤ yAdj then yAdj else yAdj - 399) / 400
  let yoe : Int := yAdj - era * 400
  let mp : Int := ((mo : Int) + 9) % 12
  let doy : Int := (153 * mp + 2) / 5 + (d : Int) - 1
  let doe : Int := yoe * 365 + yoe / 4 - yoe / 100 + doy
  era * 146097 + doe - 719468

/-- Model of `Local.from_local_datetime(..).timestamp()`: epoch seconds of
a local civil date-time under the fixed UTC offset `tz` (seconds east). -/
def local_timestamp (tz : Int) (dt : DateTimeParts) : Int :=
  daysFromCivil dt.y dt.mo dt.d * 86400
    + (dt.h : Int) * 3600 + (dt.mi : Int) * 60 + (dt.s : Int) - tz

/-- Index of the last `-` in the character list, if any (`str::rfind`). -/
def rfindDash (cs : List Char) : Option Nat :=
  (List.range cs.length).foldl
    (fun acc i => if cs.get? i = some '-' then some i else acc) none

/-- `get_c_e` of src/parser.rs: split the embedded host timestamp at its
last `-`, parse the head as a local date-time and the tail as a fractional
numerator scaled by `10^(len-1)`, add half the round trip in seconds, and
pair the result with the reply-received device timestamp. Every failure
(`unwrap` on the dash search, `expect` on the head parse, `unwrap` on the
tail parse) is a panic, not an error return. -/
def get_c_e (tz : Int) (sync : TimeSync) : Outcome (ℚ × ℚ) :=
  let e0 := sync.ts_received
  let cs := sync.ts_sent.toList
  match rfindDash cs with
  | none => .panicked "called Option::unwrap on a None value"
  | some pos =>
    let head := cs.take pos
    let tail := cs.drop pos
    match parse_datetime head with
    | none => .panicked "Invalid format"
    | some dt =>
      let c : Int := local_timestamp tz dt
      let last_n_char := tail.length - 1
      match parse_float ⟨tail.drop 1⟩ with
      | none => .panicked "called Result::unwrap on an Err value"
      | some mraw =>
        let m : ℚ := mraw / ((10 ^ last_n_char : Nat) : ℚ)
        .ok ((c : ℚ) + m + sync.round_trip / 2 / 1000, e0)

/-- The tail of `generate_sync_map` (src/parser.rs lines 119-135): build
the `TimeSyncMap` from the chosen anchor pair, or fail with the
`Cannot generate a time sync map` error when no pair was formed. -/
def assemble_map (tz : Int) (nsyncs : Nat) (st et : ℚ)
    (best : Option (TimeSync × TimeSync)) : Outcome TimeSyncMap :=
  match best with
  | none => .error "Cannot generate a time sync map"
  | some (b0, b1) =>
    (get_c_e tz b0).bind fun p0 =>
    (get_c_e tz b1).bind fun p1 =>
    .ok { te0 := p0.2
          te1 := p1.2
          tl0 := p0.1
          tl1 := p1.1
          syncs_received := nsyncs
          emotibit_start_time := st
          emotibit_end_time := et
          parse_version := "lonesomtraveler.0.0.1" }

/-- `generate_sync_map` of src/parser.rs: span of device timestamps
(`unwrap`, panics on an all-error input), handshake extraction, quartile
partition (`chunks`, panics on a zero chunk size), the four
`quartiles.get(i).unwrap()` champions in source evaluation order, anchor
selection and map assembly. -/
def generate_sync_map (tz : Int) (packets : List (Except String DataPacket)) :
    Outcome TimeSyncMap :=
  let filtered := (packets.filterMap Except.toOption).map
    (fun p => p.emotibit_timestamp)
  match reduceMin filtered with
  | none => .panicked "called Option::unwrap on a None value"
  | some emotibit_start_time =>
  match reduceMax filtered with
  | none => .panicked "called Option::unwrap on a None value"
  | some emotibit_end_time =>
  (find_syncs packets).bind fun syncs =>
  if syncs.length = 0 then .panicked "chunk size must be non-zero"
  else
    let quartiles := chunksOf (div_ceil syncs.length 4) syncs
    (match quartiles.get? 0 with
      | none => Outcome.panicked "called Option::unwrap on a None value"
      | some c0 => shortest_round_trip c0).bind fun s0 =>
    (match quartiles.get? 1 with
      | none => Outcome.panicked "called Option::unwrap on a None value"
      | some c1 => shortest_round_trip c1).bind fun s1 =>
    (match quartiles.get? 2 with
      | none => Outcome.panicked "called Option::unwrap on a None value"
      | some c2 => shortest_round_trip c2).bind fun s2 =>
    (match quartiles.get? 3 with
      | none => Outcome.panicked "called Option::unwrap on a None value"
      | some c3 => shortest_round_trip c3).bind fun s3 =>
    assemble_map tz syncs.length emotibit_start_time emotibit_end_time
      (best_timestamps s0 s1 s2 s3)

/-- `DataPacket::inject_host_timestamp` of src/types.rs: linear
interpolation of the host timestamp from the sync map, all other fields
copied. -/
def inject_host_timestamp (p : DataPacket) (map : TimeSyncMap) : DataPacket :=
  let timestamp := map.tl0
    + (map.tl1 - map.tl0) * (p.emotibit_timestamp - map.te0) / (map.te1 - map.te0)
  { host_timestamp := some timestamp
    emotibit_timestamp := p.emotibit_timestamp
    packet_id := p.packet_id
    data_points := p.data_points
    version := p.version
    reliability := p.reliability
    data_type := p.data_type }

/-- A lookup of the four quartile candidates by quartile index. -/
def qget (q0 q1 q2 q3 : Option TimeSync) : Nat → Option TimeSync
  | 0 => q0
  | 1 => q1
  | 2 => q2
  | _ => q3

/-- Selection discipline stated by an explicit ordered list of quartile
pairs: the first pair of the list whose two candidates are both present. -/
def select_by_pair_order (order : List (Nat × Nat))
    (q0 q1 q2 q3 : Option TimeSync) : Option (TimeSync × TimeSync) :=
  order.findSome? (fun ij =>
    match qget q0 q1 q2 q3 ij.1, qget q0 q1 q2 q3 ij.2 with
    | some a, some b => some (a, b)
    | _, _ => none)

/-- The five quartile pairs the specification claims, in the claimed
order (this definition follows the spec's words, for comparison with the
source's match). -/
def spec_claimed_pair_order : List (Nat × Nat) :=
  [(0, 3), (1, 3), (1, 2), (0, 1), (2, 3)]

/-- The six quartile pairs the source's match actually tries, read off
arm for arm from src/parser.rs lines 109-114. -/
def code_pair_order : List (Nat × Nat) :=
  [(0, 3), (0, 2), (1, 3), (1, 2), (0, 1), (2, 3)]

/-- A concrete handshake sample used as the quartile-0 candidate. -/
def sync0 : TimeSync :=
  { rd := 0, ts_received := 1, ts_sent := "a", ak := 2, round_trip := 1 }

/-- A concrete handshake sample used as the quartile-2 candidate. -/
def sync2 : TimeSync :=
  { rd := 10, ts_received := 11, ts_sent := "b", ak := 12, round_trip := 1 }

/-- A packet with the given device timestamp and payload and fixed
remaining header fields. -/
def mkPkt (ts : ℚ) (dt : DataType) : DataPacket :=
  { host_timestamp := none, emotibit_timestamp := ts, packet_id := 0,
    data_points := 0, version := 1, reliability := 100, data_type := dt }

/-- A request packet at device time 100. -/
def rdP : DataPacket := mkPkt 100 (.RD ["TL"])

/-- A reply packet at device time 100 embedding the host timestamp `s`. -/
def tlP (s : String) : DataPacket := mkPkt 100 (.TL s)

/-- An acknowledge packet at device time 100. -/
def akP : DataPacket := mkPkt 100 (.AK ["TL"])

/-- A well-formed embedded host timestamp (the source's `rfind('-')`
logic expects the fractional tail after a `-`). -/
def goodTs : String := "2023-05-01_10-00-00-1234"

/-- One clean request/reply/acknowledge handshake block. -/
def trio (s : String) : List (Except String DataPacket) :=
  [.ok rdP, .ok (tlP s), .ok akP]

/-- Four clean handshake blocks whose reply packets all carry the same
device timestamp, so that every quartile champion has `ts_received = 100`. -/
def c2pkts : List (Except String DataPacket) :=
  trio goodTs ++ trio goodTs ++ trio goodTs ++ trio goodTs

/-- The sync map `generate_sync_map` produces on `c2pkts`: its two device
anchors coincide. -/
def c2map : TimeSyncMap :=
  { te0 := 100, te1 := 100,
    tl0 := 1682935200 + 617 / 5000, tl1 := 1682935200 + 617 / 5000,
    syncs_received := 4, emotibit_start_time := 100,
    emotibit_end_time := 100, parse_version := "lonesomtraveler.0.0.1" }

/-- Five clean handshake blocks: five sync triples, hence chunk size
`ceil(5/4) = 2` and only three quartile chunks. -/
def c4pkts : List (Except String DataPacket) :=
  trio "x" ++ trio "x" ++ trio "x" ++ trio "x" ++ trio "x"

/-- Four clean handshake blocks whose embedded host timestamps contain no
`-` character. -/
def c7pkts : List (Except String DataPacket) :=
  trio "nodash" ++ trio "nodash" ++ trio "nodash" ++ trio "nodash"

/-- The anchor sample used by the degenerate-anchor witness. -/
def vsync : TimeSync :=
  { rd := 100, ts_received := 100, ts_sent := goodTs, ak := 100, round_trip := 0 }

lemma get_c_e_ok_snd (tz : Int) (s : TimeSync) (x : ℚ × ℚ)
    (h : get_c_e tz s = .ok x) : x.2 = s.ts_received := by
  simp only [get_c_e] at h
  split at h
  · exact absurd h (by simp)
  · split at h
    · exact absurd h (by simp)
    · split at h
      · exact absurd h (by simp)
      · cases h
        rfl

/-- C1 counterexample: with candidates present in quartiles 0 and 2 only,
the source's match selects the pair (quartile 0, quartile 2), while the
claimed five-element priority list (0&3, 1&3, 1&2, 0&1, 2&3) forms no
pair at all, so the claimed selection discipline is not the code's. -/
theorem C1_counterexample :
    best_timestamps (some sync0) none (some sync2) none = some (sync0, sync2)
      ∧ select_by_pair_order spec_claimed_pair_order
          (some sync0) none (some sync2) none = none :=
  ⟨rfl, rfl⟩

/-- C1 (amended): the anchor pair is the first pair of the six-element
list 0&3, 0&2, 1&3, 1&2, 0&1, 2&3 (in that order) whose two quartile
candidates are both present, and when no pair can be formed the map
assembly fails with the `Cannot generate a time sync map` error. -/
theorem C1_anchor_pair_order :
    (∀ q0 q1 q2 q3 : Option TimeSync,
        best_timestamps q0 q1 q2 q3
          = select_by_pair_order code_pair_order q0 q1 q2 q3)
      ∧ (∀ (tz : Int) (n : Nat) (st et : ℚ),
          assemble_map tz n st et none
            = Outcome.error "Cannot generate a time sync map") := by
  constructor
  · intro q0 q1 q2 q3
    cases q0 <;> cases q1 <;> cases q2 <;> cases q3 <;> rfl
  · intro tz n st et
    rfl

set_option maxRecDepth 4000 in
/-- C2 counterexample: on `c2pkts` the two chosen anchors have identical
device-time coordinates (`te0 = te1 = 100`), yet `generate_sync_map`
returns a `TimeSyncMap` instead of failing with an error. -/
theorem C2_counterexample :
    generate_sync_map 0 c2pkts = Outcome.ok c2map ∧ c2map.te0 = c2map.te1 :=
  ⟨by with_unfolding_all rfl, rfl⟩

/-- C2 (amended): `generate_sync_map` performs no degeneracy check on the
anchor pair: whenever the two chosen anchors parse successfully and have
identical `ts_received` device coordinates, map assembly succeeds and the
resulting map has `te0 = te1`; the division by zero is deferred to
`inject_host_timestamp`. -/
theorem C2_no_degeneracy_check (tz : Int) (n : Nat) (st et : ℚ)
    (b0 b1 : TimeSync) (x0 x1 : ℚ × ℚ)
    (h0 : get_c_e tz b0 = .ok x0) (h1 : get_c_e tz b1 = .ok x1)
    (heq : b0.ts_received = b1.ts_received) :
    assemble_map tz n st et (some (b0, b1))
        = Outcome.ok { te0 := x0.2, te1 := x1.2, tl0 := x0.1, tl1 := x1.1,
                       syncs_received := n, emotibit_start_time := st,
                       emotibit_end_time := et,
                       parse_version := "lonesomtraveler.0.0.1" }
      ∧ x0.2 = x1.2 := by
  constructor
  · simp only [assemble_map, h0, h1, Outcome.bind]
  · rw [get_c_e_ok_snd tz b0 x0 h0, get_c_e_ok_snd tz b1 x1 h1, heq]

/-- C2 witness: the degenerate-anchor map assembly at a concrete anchor
pair with coinciding device coordinates. -/
theorem C2_no_degeneracy_check_witness :
    assemble_map 0 4 100 100 (some (vsync, vsync)) = Outcome.ok c2map
      ∧ (100 : ℚ) = 100 :=
  C2_no_degeneracy_check 0 4 100 100 vsync vsync
    (1682935200 + 617 / 5000, 100) (1682935200 + 617 / 5000, 100)
    (by with_unfolding_all rfl) (by with_unfolding_all rfl) rfl

/-- C3: `find_syncs` never produces a `not enough sync data` error. On
zero or one qualifying handshake packet it panics (the source slices the
filtered vector at offsets 1 and 2), and on exactly two qualifying
packets it succeeds with the empty triple list. -/
theorem C3_find_syncs_small_inputs :
    find_syncs [] = Outcome.panicked "slice start index out of range"
      ∧ find_syncs [Except.ok rdP]
          = Outcome.panicked "slice start index out of range"
      ∧ find_syncs [Except.ok rdP, Except.ok (tlP "x")] = Outcome.ok [] := by
  refine ⟨rfl, by decide, by decide⟩

set_option maxRecDepth 4000 in
/-- C4: on an input with exactly five sync triples the chunk size is
`ceil(5/4) = 2`, only three quartile chunks exist, and
`quartiles.get(3).unwrap()` panics instead of yielding no candidate. -/
theorem C4_five_triples_panic :
    generate_sync_map 0 c4pkts
      = Outcome.panicked "called Option::unwrap on a None value" := by
  with_unfolding_all rfl

/-- C5: TX refinement. A `TX` payload with at least 4 entries and sub-tag
pair (`LC`,`LM`) refines to the two-number variant, pair (`TL`,`LC`)
refines to the (string, number) variant, any other pair fails with the
`Invalid data` error, and a `TX` payload with fewer than 4 entries is
kept unchanged. -/
theorem C5_tx_refinement :
    (∀ (x : DataPacket) (v1 v2 : String) (rest : List String) (a b : ℚ),
        x.data_type = DataType.TX ("LC" :: v1 :: "LM" :: v2 :: rest) →
        parse_float v1 = some a → parse_float v2 = some b →
        split_tx_or_as_is x
          = Except.ok { x with data_type := DataType.TxLcLm [a, b] })
      ∧ (∀ (x : DataPacket) (v1 v2 : String) (rest : List String) (b : ℚ),
          x.data_type = DataType.TX ("TL" :: v1 :: "LC" :: v2 :: rest) →
          parse_float v2 = some b →
          split_tx_or_as_is x
            = Except.ok { x with data_type := DataType.TxTlLc (v1, b) })
      ∧ (∀ (x : DataPacket) (t1 v1 t2 v2 : String) (rest : List String),
          x.data_type = DataType.TX (t1 :: v1 :: t2 :: v2 :: rest) →
          ¬(t1 = "LC" ∧ t2 = "LM") → ¬(t1 = "TL" ∧ t2 = "LC") →
          split_tx_or_as_is x = Except.error "Invalid data")
      ∧ (∀ (x : DataPacket) (data : List String),
          x.data_type = DataType.TX data → data.length < 4 →
          split_tx_or_as_is x = Except.ok x) := by
  refine ⟨?_, ?_, ?_, ?_⟩
  · rintro ⟨ht, et, pid, dp, v, r, dt⟩ v1 v2 rest a b hx ha hb
    dsimp only at hx
    subst hx
    simp [split_tx_or_as_is, ha, hb]
  · rintro ⟨ht, et, pid, dp, v, r, dt⟩ v1 v2 rest b hx hb
    dsimp only at hx
    subst hx
    simp [split_tx_or_as_is, hb]
  · rintro ⟨ht, et, pid, dp, v, r, dt⟩ t1 v1 t2 v2 rest hx h1 h2
    dsimp only at hx
    subst hx
    simp only [split_tx_or_as_is, List.get?]
    rw [if_neg h1, if_neg h2]
  · rintro ⟨ht, et, pid, dp, v, r, dt⟩ data hx hlen
    dsimp only at hx
    subst hx
    rcases data with _ | ⟨a1, _ | ⟨a2, _ | ⟨a3, _ | ⟨a4, t⟩⟩⟩⟩
    · rfl
    · rfl
    · rfl
    · rfl
    · simp only [List.length_cons] at hlen
      omega

/-- C5 witness: the four refinement behaviors at concrete packets. -/
theorem C5_tx_refinement_witness :
    split_tx_or_as_is (mkPkt 1 (DataType.TX ["LC", "1.5", "LM", "2"]))
        = Except.ok { mkPkt 1 (DataType.TX ["LC", "1.5", "LM", "2"]) with
            data_type := DataType.TxLcLm [3 / 2, 2] }
      ∧ split_tx_or_as_is (mkPkt 1 (DataType.TX ["TL", "t0", "LC", "0.5"]))
          = Except.ok { mkPkt 1 (DataType.TX ["TL", "t0", "LC", "0.5"]) with
              data_type := DataType.TxTlLc ("t0", 1 / 2) }
      ∧ split_tx_or_as_is (mkPkt 1 (DataType.TX ["AA", "1", "BB", "2"]))
          = Except.error "Invalid data"
      ∧ split_tx_or_as_is (mkPkt 1 (DataType.TX ["LC", "1"]))
          = Except.ok (mkPkt 1 (DataType.TX ["LC", "1"])) :=
  ⟨C5_tx_refinement.1 _ "1.5" "2" [] (3 / 2) 2 rfl
      (by with_unfolding_all rfl) (by with_unfolding_all rfl),
    C5_tx_refinement.2.1 _ "t0" "0.5" [] (1 / 2) rfl (by with_unfolding_all rfl),
    C5_tx_refinement.2.2.1 _ "AA" "1" "BB" "2" [] rfl (by decide) (by decide),
    C5_tx_refinement.2.2.2 _ ["LC", "1"] rfl (by decide)⟩

/-- C6 counterexample: on the spec's example text
`2023-05-01_10-00-00_1234` (fractional tail separated by `_`) the last
`-` lies inside the seconds field, the date-time head fails to parse, and
`get_c_e` panics instead of yielding the claimed host anchor. -/
theorem C6_counterexample :
    get_c_e 0 { rd := 0, ts_received := 100,
                ts_sent := "2023-05-01_10-00-00_1234", ak := 0,
                round_trip := 20 }
      = Outcome.panicked "Invalid format" := by
  with_unfolding_all rfl

/-- C6 (amended): with the fractional tail separated by `-` (the format
the source's `rfind('-')` logic expects), the embedded timestamp
`2023-05-01_10-00-00-1234` with round trip 20 ms parses to the host
anchor `epoch(2023-05-01 10:00:00 local) + 0.1234 + 0.010` seconds,
paired with the reply-received device timestamp. -/
theorem C6_host_anchor_value (tz : Int) (rd e0 ak : ℚ) :
    get_c_e tz { rd := rd, ts_received := e0,
                 ts_sent := "2023-05-01_10-00-00-1234", ak := ak,
                 round_trip := 20 }
      = Outcome.ok
          (((local_timestamp tz ⟨2023, 5, 1, 10, 0, 0⟩ : Int) : ℚ)
              + 1234 / 10000 + 10 / 1000, e0) := by
  have h : get_c_e tz { rd := rd, ts_received := e0,
                        ts_sent := "2023-05-01_10-00-00-1234", ak := ak,
                        round_trip := 20 }
      = Outcome.ok
          (((local_timestamp tz ⟨2023, 5, 1, 10, 0, 0⟩ : Int) : ℚ)
              + (digitsToNat ['1', '2', '3', '4'] : ℚ) / ((10 ^ 4 : Nat) : ℚ)
              + (20 : ℚ) / 2 / 1000, e0) := rfl
  have hd : digitsToNat ['1', '2', '3', '4'] = 1234 := by decide
  rw [h, hd]
  norm_num

/-- C7 counterexample: when every embedded host timestamp lacks a `-`,
the sync-map computation panics (`rfind('-').unwrap()`) instead of
returning a descriptive error value. -/
theorem C7_counterexample :
    generate_sync_map 0 c7pkts
      = Outcome.panicked "called Option::unwrap on a None value" := by
  with_unfolding_all rfl

/-- C7 (amended): every parse failure inside `get_c_e` — no `-` in the
text, an unparseable date-time head, or an unparseable fractional tail —
aborts with a panic; no error value is returned. -/
theorem C7_get_c_e_panics (tz : Int) (sync : TimeSync) :
    (rfindDash sync.ts_sent.toList = none →
        get_c_e tz sync
          = Outcome.panicked "called Option::unwrap on a None value")
      ∧ (∀ pos, rfindDash sync.ts_sent.toList = some pos →
          parse_datetime (sync.ts_sent.toList.take pos) = none →
          get_c_e tz sync = Outcome.panicked "Invalid format")
      ∧ (∀ pos dt, rfindDash sync.ts_sent.toList = some pos →
          parse_datetime (sync.ts_sent.toList.take pos) = some dt →
          parse_float (String.mk ((sync.ts_sent.toList.drop pos).drop 1)) = none →
          get_c_e tz sync
            = Outcome.panicked "called Result::unwrap on an Err value") := by
  refine ⟨?_, ?_, ?_⟩
  · intro h
    simp only [get_c_e, h]
  · intro pos h1 h2
    simp only [get_c_e, h1, h2]
  · intro pos dt h1 h2 h3
    simp only [get_c_e, h1, h2, h3]

/-- C7 witness: the three panic modes at concrete handshake samples. -/
theorem C7_get_c_e_panics_witness :
    get_c_e 0 { rd := 0, ts_received := 0, ts_sent := "nodash", ak := 0,
                round_trip := 0 }
        = Outcome.panicked "called Option::unwrap on a None value"
      ∧ get_c_e 0 { rd := 0, ts_received := 0, ts_sent := "abc-12", ak := 0,
                    round_trip := 0 }
          = Outcome.panicked "Invalid format"
      ∧ get_c_e 0 { rd := 0, ts_received := 0,
                    ts_sent := "2023-05-01_10-00-00-12_3", ak := 0,
                    round_trip := 0 }
          = Outcome.panicked "called Result::unwrap on an Err value" :=
  ⟨(C7_get_c_e_panics 0 _).1 (by decide),
    (C7_get_c_e_panics 0 _).2.1 3 (by decide) (by decide),
    (C7_get_c_e_panics 0 _).2.2 19 ⟨2023, 5, 1, 10, 0, 0⟩ (by decide)
      (by decide) (by decide)⟩

/-- C8: numeric payload decoding is all-or-nothing. `to_vec` succeeds
exactly when every field from the skip offset onward parses, and then
returns the full parsed sequence; and every numeric type tag of
`get_data_type` decodes its payload through `to_vec` with the variant's
declared numeric parser from offset 6. -/
theorem C8_numeric_all_or_nothing :
    (∀ (α : Type) (p : String → Option α) (record : List String) (l : List α),
        to_vec p record 6 = Except.ok l ↔
          (∀ x ∈ record.drop 6, (p (trimStr x)).isSome)
            ∧ l = (record.drop 6).filterMap (fun x => p (trimStr x)))
      ∧ (∀ r, get_data_type r "EA" = (to_vec parse_float r 6).map DataType.EA)
      ∧ (∀ r, get_data_type r "EL" = (to_vec parse_float r 6).map DataType.EL)
      ∧ (∀ r, get_data_type r "ER" = (to_vec parse_float r 6).map DataType.ER)
      ∧ (∀ r, get_data_type r "T0" = (to_vec parse_float r 6).map DataType.T0)
      ∧ (∀ r, get_data_type r "T1" = (to_vec parse_float r 6).map DataType.T1)
      ∧ (∀ r, get_data_type r "TH" = (to_vec parse_float r 6).map DataType.TH)
      ∧ (∀ r, get_data_type r "AX" = (to_vec parse_float r 6).map DataType.AX)
      ∧ (∀ r, get_data_type r "AY" = (to_vec parse_float r 6).map DataType.AY)
      ∧ (∀ r, get_data_type r "AZ" = (to_vec parse_float r 6).map DataType.AZ)
      ∧ (∀ r, get_data_type r "GX" = (to_vec parse_float r 6).map DataType.GX)
      ∧ (∀ r, get_data_type r "GY" = (to_vec parse_float r 6).map DataType.GY)
      ∧ (∀ r, get_data_type r "GZ" = (to_vec parse_float r 6).map DataType.GZ)
      ∧ (∀ r, get_data_type r "SA" = (to_vec parse_float r 6).map DataType.SA)
      ∧ (∀ r, get_data_type r "SF" = (to_vec parse_float r 6).map DataType.SF)
      ∧ (∀ r, get_data_type r "SR" = (to_vec parse_float r 6).map DataType.SR)
      ∧ (∀ r, get_data_type r "BV" = (to_vec parse_float r 6).map DataType.BV)
      ∧ (∀ r, get_data_type r "PI" = (to_vec parse_u32 r 6).map DataType.PI)
      ∧ (∀ r, get_data_type r "PR" = (to_vec parse_u32 r 6).map DataType.PR)
      ∧ (∀ r, get_data_type r "PG" = (to_vec parse_u32 r 6).map DataType.PG)
      ∧ (∀ r, get_data_type r "B%" = (to_vec parse_u32 r 6).map DataType.BATLV)
      ∧ (∀ r, get_data_type r "MX" = (to_vec parse_i32 r 6).map DataType.MX)
      ∧ (∀ r, get_data_type r "MY" = (to_vec parse_i32 r 6).map DataType.MY)
      ∧ (∀ r, get_data_type r "MZ" = (to_vec parse_i32 r 6).map DataType.MZ)
      ∧ (∀ r, get_data_type r "BI" = (to_vec parse_i32 r 6).map DataType.BI)
      ∧ (∀ r, get_data_type r "HR" = (to_vec parse_i32 r 6).map DataType.HR) := by
  refine ⟨?_, fun _ => rfl, fun _ => rfl, fun _ => rfl, fun _ => rfl,
    fun _ => rfl, fun _ => rfl, fun _ => rfl, fun _ => rfl, fun _ => rfl,
    fun _ => rfl, fun _ => rfl, fun _ => rfl, fun _ => rfl, fun _ => rfl,
    fun _ => rfl, fun _ => rfl, fun _ => rfl, fun _ => rfl, fun _ => rfl,
    fun _ => rfl, fun _ => rfl, fun _ => rfl, fun _ => rfl, fun _ => rfl,
    fun _ => rfl⟩
  intro α p record l
  simp only [to_vec]
  by_cases hq : ((record.drop 6).filter
      (fun x => (p (trimStr x)).isNone)).isEmpty
  · rw [if_pos hq]
    rw [List.isEmpty_iff] at hq
    have hall : ∀ x ∈ record.drop 6, (p (trimStr x)).isSome := by
      intro x hx
      by_contra hns
      have hmem : x ∈ (record.drop 6).filter (fun x => (p (trimStr x)).isNone) :=
        List.mem_filter.2 ⟨hx, by simpa using hns⟩
      rw [hq] at hmem
      exact absurd hmem (List.not_mem_nil x)
    simp only [Except.ok.injEq]
    constructor
    · intro hok
      exact ⟨hall, hok.symm⟩
    · rintro ⟨-, rfl⟩
      rfl
  · rw [if_neg hq]
    constructor
    · intro hcontra
      exact Except.noConfusion hcontra
    · rintro ⟨hall, -⟩
      refine absurd ?_ hq
      rw [List.isEmpty_iff, List.filter_eq_nil_iff]
      intro a ha
      have hs := hall a ha
      cases hpa : p (trimStr a) with
      | none => rw [hpa] at hs; exact absurd hs (by simp)
      | some v => simp [hpa]

/-- C8 witness: the error-free and the failing payload at a concrete
record. -/
theorem C8_numeric_all_or_nothing_witness :
    to_vec parse_float ["a", "b", "c", "d", "e", "f", "1.5", "2"] 6
        = Except.ok [3 / 2, 2] ↔
      (∀ x ∈ (["a", "b", "c", "d", "e", "f", "1.5", "2"] : List String).drop 6,
          (parse_float (trimStr x)).isSome)
        ∧ ([3 / 2, 2] : List ℚ)
            = ((["a", "b", "c", "d", "e", "f", "1.5", "2"] : List String).drop 6).filterMap
                (fun x => parse_float (trimStr x)) :=
  C8_numeric_all_or_nothing.1 ℚ parse_float
    ["a", "b", "c", "d", "e", "f", "1.5", "2"] [3 / 2, 2]

/-- C9: `inject_host_timestamp` returns a packet whose host timestamp is
the two-point linear projection
`tl0 + (tl1 - tl0) * (t - te0) / (te1 - te0)` of the device timestamp,
and whose every other field equals the corresponding input field. -/
theorem C9_inject_host_timestamp (p : DataPacket) (map : TimeSyncMap) :
    (inject_host_timestamp p map).host_timestamp
        = some (map.tl0 + (map.tl1 - map.tl0)
            * (p.emotibit_timestamp - map.te0) / (map.te1 - map.te0))
      ∧ (inject_host_timestamp p map).emotibit_timestamp = p.emotibit_timestamp
      ∧ (inject_host_timestamp p map).packet_id = p.packet_id
      ∧ (inject_host_timestamp p map).data_points = p.data_points
      ∧ (inject_host_timestamp p map).version = p.version
      ∧ (inject_host_timestamp p map).reliability = p.reliability
      ∧ (inject_host_timestamp p map).data_type = p.data_type :=
  ⟨rfl, rfl, rfl, rfl, rfl, rfl, rfl⟩

/-- C10: the TX refinement step leaves every packet whose payload is not
the generic `TX` variant unchanged, and never fails on it. -/
theorem C10_non_tx_unchanged (x : DataPacket)
    (h : ∀ l, x.data_type ≠ DataType.TX l) :
    split_tx_or_as_is x = Except.ok x := by
  rcases x with ⟨ht, et, pid, dp, v, r, dt⟩
  cases dt <;> first | rfl | exact absurd rfl (h _)

/-- C10 witness: a refined `TX_TL_LC` packet passes through unchanged. -/
theorem C10_non_tx_unchanged_witness :
    split_tx_or_as_is (mkPkt 1 (DataType.TxTlLc ("t0", 1)))
      = Except.ok (mkPkt 1 (DataType.TxTlLc ("t0", 1))) :=
  C10_non_tx_unchanged _ (fun _ h => DataType.noConfusion h)
